import Mathlib

set_option maxRecDepth 8000

/-! Verification development for the uptiny director-targets validator
(src/targets.c): a shallow embedding of the streaming parser, its lexical
primitives and its context pool, together with theorems settling the
specification claims against the code.

Modelling conventions:
* bytes are `Nat` (0..255 in practice); the input stream is a `List Nat`,
  and the caller's `read` callback delivers `n` bytes from its front or
  fails when fewer remain, matching the byte-source contract (spec §6);
* the crypto layer (crypto.h, not under src/) is an oracle bundle `Env`:
  `keytypeSupported`, whether the n-th `crypto_verify_ctx_new` call
  succeeds, and the per-slot verdict of `crypto_verify_result`;
* `from_hex` (targets.c:126-135) ends without a `return` statement, so the
  byte it stores is undefined; the main embedding carries an arbitrary
  resolution `ubFromHex` of that undefined value;
* `read_verify_wrapper`, `one_char`, `ignore_string` and `time_string`
  also fall off the end of the function on their success paths
  (spec §9.1-9.2); the main embedding models the success path as success,
  and the return-definedness defect is modelled separately by the
  `*_ret` definitions below. -/

namespace Uptiny

/-- A byte of the input stream (0..255 in practice), modelled as `Nat`. -/
abbrev Byte := Nat

/-- A byte string. -/
abbrev Bytes := List Nat

/-- ASCII bytes of a Lean string literal (all grammar literals are ASCII). -/
def str (s : String) : Bytes := s.data.map Char.toNat

/-- is_hex (targets.c:121-125). -/
def is_hex (c : Nat) : Bool :=
  decide ((48 ≤ c ∧ c ≤ 57) ∨ (65 ≤ c ∧ c ≤ 70) ∨ (97 ≤ c ∧ c ≤ 102))

/-- The local `digit` value computed inside from_hex (targets.c:126-135)
from the high-nibble character (inputs are validated by the callers). -/
def from_hex_digit (hi : Nat) : Nat :=
  if 48 ≤ hi ∧ hi ≤ 57 then hi - 48
  else if 65 ≤ hi ∧ hi ≤ 70 then hi - 65 + 10
  else hi - 97 + 10

/-- from_hex (targets.c:126-135). The C function computes `digit` from `hi`,
never uses `lo`, and ends without any `return` statement, so the byte it
yields to its caller is undefined; the undefined return is modelled as
`none`. -/
def from_hex (hi lo : Nat) : Option Nat := none

/-- What the spec asks of the nibble-pair decoder (§4.2: decode a pair of
hex nibbles into one byte, first nibble high); stated for comparison with
the source's `from_hex`. -/
def from_hex_spec (hi lo : Nat) : Nat := from_hex_digit hi * 16 + from_hex_digit lo

/-- Modelled from the spec (§7): the result taxonomy of targets.h, which is
not under src/. -/
inductive TResult where
  | ok_update
  | ok_noupdate
  | ok_noimage
  | nohash
  | jsonerr
  | wrongtype
  | expired
  | downgrade
  | sigfail
  | ecuduplicate
  | nomem
deriving DecidableEq, Repr

/-- Build-time configuration constants (uptane_config.h / crypto.h, not
under src/). Modelled from the spec: `MAX_SIGS`, `BUF_SIZE` (§6),
`CRYPTO_KEYID_LEN`, `CRYPTO_SIGNATURE_LEN` (§6), `SHA512_HASH_SIZE`. -/
structure Config where
  maxSigs : Nat
  bufSize : Nat
  keyidLen : Nat
  sigLen : Nat
  hashLen : Nat

/-- The external collaborators of the parser (crypto.h, not under src/),
modelled from the spec (§6), plus the resolution of `from_hex`'s undefined
return value. `ctxNewOk n` says whether the n-th call of
`crypto_verify_ctx_new` succeeds; `verifyResult i fed` is the verdict of
`crypto_verify_result` for the context bound to key slot `i` after the
bytes `fed` were fed to it. -/
structure Env where
  cfg : Config
  keytypeSupported : Bytes → Bool
  ctxNewOk : Nat → Bool
  verifyResult : Nat → Bytes → Bool
  ubFromHex : Byte → Byte → Byte

/-- Calendar time (uptane_time.h, not under src/). Modelled from the spec
(§3): year, month, day, hour, minute, second. -/
structure UpTime where
  year : Nat
  month : Nat
  day : Nat
  hour : Nat
  minute : Nat
  second : Nat
deriving DecidableEq, Repr

/-- Modelled from the spec: `uptane_time_greater` (uptane_time.h, not under
src/); the calendar ordering is lexicographic (§3) and the expiry check is
strict (`now > expires`, §4.3, §8.5). -/
def uptane_time_greater (a b : UpTime) : Bool :=
  decide (b.year < a.year ∨ (b.year = a.year ∧
    (b.month < a.month ∨ (b.month = a.month ∧
      (b.day < a.day ∨ (b.day = a.day ∧
        (b.hour < a.hour ∨ (b.hour = a.hour ∧
          (b.minute < a.minute ∨ (b.minute = a.minute ∧ b.second < a.second))))))))))

/-- The configuration inputs installed by targets_init (targets.c:83-107):
previous version, current time, local identities, the ordered trusted keys
(each element is that key's keyid byte string) and the threshold. -/
structure Inputs where
  versionPrev : Nat
  now : UpTime
  ecuId : Bytes
  hwId : Bytes
  keys : List Bytes
  threshold : Nat

/-- ctx->num_keys after targets_init: the install loop stops at
CONFIG_UPTANE_TARGETS_MAX_SIGS (targets.c:91-100). -/
def numKeys (env : Env) (ins : Inputs) : Nat :=
  min ins.keys.length env.cfg.maxSigs

/-- The keyids actually installed in ctx->sigs[0..num_keys) by targets_init. -/
def effKeys (env : Env) (ins : Inputs) : List Bytes :=
  ins.keys.take env.cfg.maxSigs

/-- The mutable parser state threaded through targets_process: the
remaining input stream, the in_signed flag, the byte sequence teed to the
live verification contexts (all live contexts receive the same bytes,
since every context is created before in_signed is set and none after),
the per-slot sig_valid flags, whether slot i holds a live verification
context (sig_ctx[i] allocated), the signature bytes stored in
ctx->sigs[i]->sig, the number of crypto_verify_ctx_new calls made, and the
output fields sha512_hash / length / version. -/
structure PState where
  inp : Bytes
  inSigned : Bool
  fed : Bytes
  sigValid : List Bool
  sigCtx : List Bool
  sigStored : List Bytes
  allocs : Nat
  sha512 : Bytes
  lengthOut : Nat
  version : Nat
deriving DecidableEq, Repr

/-- The state right after targets_init on a fresh context, about to read
the given stream. -/
def initState (env : Env) (ins : Inputs) (stream : Bytes) : PState :=
  { inp := stream
    inSigned := false
    fed := []
    sigValid := List.replicate (numKeys env ins) false
    sigCtx := List.replicate (numKeys env ins) false
    sigStored := List.replicate (numKeys env ins) []
    allocs := 0
    sha512 := []
    lengthOut := 0
    version := 0 }

/-- read_verify_wrapper (targets.c:109-119): read `n` bytes via the
callback; on success, if in_signed is set, feed the bytes read to every
live verification context. The C function's only `return` statement is
`return false` on read failure — on success control falls off the end and
the returned boolean is undefined (spec §9.2); callers rely on it being
truthy, which is how the success path is modelled here (the definedness
defect itself is modelled by `read_verify_wrapper_ret` below). -/
def read_verify_wrapper (s : PState) (n : Nat) : Option Bytes × PState :=
  if n ≤ s.inp.length then
    (some (s.inp.take n),
      { s with inp := s.inp.drop n
               fed := if s.inSigned then s.fed ++ s.inp.take n else s.fed })
  else (none, s)

/-- one_char (targets.c:138-141); the missing success return (spec §9.2) is
modelled as in `read_verify_wrapper`. -/
def one_char (s : PState) : Option Byte × PState :=
  match read_verify_wrapper s 1 with
  | (none, s1) => (none, s1)
  | (some l, s1) => (l.head?, s1)

/-- fixed_data (targets.c:143-151): read `strlen(string)` bytes and compare
with the expected literal. The C compares with `strcmp` on a buffer that is
not NUL-terminated (spec §9.4); the comparison is modelled as byte equality
of the bytes read with the literal. -/
def fixed_data (s : PState) (lit : Bytes) : Bool × PState :=
  match read_verify_wrapper s lit.length with
  | (none, s1) => (false, s1)
  | (some buf, s1) => (buf == lit, s1)

/-- The nibble loop of hex_string (targets.c:164-179), one decoded pair per
step. `fuel` is the number of pairs the loop may still read: the C bound is
`i < (max_len << 1)` with one byte per `i`, so after `max_len` complete
pairs the loop exits WITHOUT reading the closing quote. A closing quote is
recognised only at even positions (first nibble); at odd positions it fails
the is_hex check (parity error, -2). The decoded byte that the C stores,
`from_hex(hex[0], hex[1])`, is undefined (missing return); it is modelled
as `env.ubFromHex`. -/
def hex_string_pairs (env : Env) : Nat → Bytes → PState → (Int × Bytes) × PState
  | 0, acc, s => ((Int.ofNat acc.length, acc), s)
  | fuel+1, acc, s =>
    match one_char s with
    | (none, s1) => ((-1, acc), s1)
    | (some c, s1) =>
      if c = 34 then ((Int.ofNat acc.length, acc), s1)
      else if is_hex c = false then ((-2, acc), s1)
      else
        match one_char s1 with
        | (none, s2) => ((-1, acc), s2)
        | (some c2, s2) =>
          if is_hex c2 = false then ((-2, acc), s2)
          else hex_string_pairs env fuel (acc ++ [env.ubFromHex c c2]) s2

/-- hex_string (targets.c:154-181): quoted hex string including the quotes;
returns the byte count decoded (or -1 on read failure, -2 on a lexical
error) together with the decoded bytes. -/
def hex_string (env : Env) (maxLen : Nat) (s : PState) : (Int × Bytes) × PState :=
  match one_char s with
  | (none, s1) => ((-1, []), s1)
  | (some c, s1) =>
    if c ≠ 34 then ((-2, []), s1)
    else hex_string_pairs env maxLen [] s1

/-- The character loop of text_string (targets.c:194-206): up to `fuel`
characters before the closing quote; returns the captured bytes, or `none`
on read failure or when the string is longer than the cap. -/
def text_string_loop : Nat → Bytes → PState → Option Bytes × PState
  | 0, _, s => (none, s)
  | fuel+1, acc, s =>
    match one_char s with
    | (none, s1) => (none, s1)
    | (some b, s1) =>
      if b = 34 then (some acc, s1)
      else text_string_loop fuel (acc ++ [b]) s1

/-- text_string (targets.c:184-210): quoted string including the quotes;
`some captured` on success. -/
def text_string (maxLen : Nat) (s : PState) : Option Bytes × PState :=
  match one_char s with
  | (none, s1) => (none, s1)
  | (some b, s1) =>
    if b ≠ 34 then (none, s1)
    else text_string_loop maxLen [] s1

/-- INT_MAX of limits.h on the 32-bit targets this code is built for. -/
def INT_MAX : Nat := 2147483647

/-- ignore_string (targets.c:212-214): text_string with a discarded output.
The C function has no `return` statement at all (spec §9.2); the caller's
use of its (undefined) value is modelled as propagating text_string's
result, the definedness defect by `ignore_string_ret` below. -/
def ignore_string (s : PState) : Bool × PState :=
  match text_string INT_MAX s with
  | (r, s1) => (r.isSome, s1)

/-- The peek/accumulate loop of integer_number (targets.c:221-233). `fuel`
only guards termination: every iteration consumes one byte, so with
`fuel = |input| + 1` the base case is unreachable. Accumulation is uint32
arithmetic, hence the mod 2^32. -/
def integer_number_loop : Nat → Nat → Bool → PState → Option Nat × PState
  | 0, _, _, s => (none, s)
  | fuel+1, res, valid, s =>
    match s.inp.head? with
    | none => (none, s)
    | some b =>
      if 48 ≤ b ∧ b ≤ 57 then
        match one_char s with
        | (none, s1) => (none, s1)
        | (some _, s1) =>
          integer_number_loop fuel ((res * 10 + (b - 48)) % 4294967296) true s1
      else (if valid then some res else none, s)

/-- integer_number (targets.c:216-236): `some value` exactly when at least
one digit was read; the first non-digit byte is peeked, not consumed. -/
def integer_number (s : PState) : Option Nat × PState :=
  integer_number_loop (s.inp.length + 1) 0 false s

/-- time_string (targets.c:239-280): the exact shape yyyy-mm-ddThh:mm:ssZ
with per-field upper bounds. The success path of the C function has no
return statement (spec §9.2) and is modelled as success. -/
def time_string (s : PState) : (Bool × UpTime) × PState :=
  match fixed_data s (str ("\"")) with
  | (false, s1) => ((false, ⟨0,0,0,0,0,0⟩), s1)
  | (true, s1) =>
    match integer_number s1 with
    | (none, s2) => ((false, ⟨0,0,0,0,0,0⟩), s2)
    | (some yr, s2) =>
      if 65535 < yr then ((false, ⟨0,0,0,0,0,0⟩), s2) else
      match fixed_data s2 (str ("-")) with
      | (false, s3) => ((false, ⟨0,0,0,0,0,0⟩), s3)
      | (true, s3) =>
        match integer_number s3 with
        | (none, s4) => ((false, ⟨0,0,0,0,0,0⟩), s4)
        | (some mo, s4) =>
          if 12 < mo then ((false, ⟨0,0,0,0,0,0⟩), s4) else
          match fixed_data s4 (str ("-")) with
          | (false, s5) => ((false, ⟨0,0,0,0,0,0⟩), s5)
          | (true, s5) =>
            match integer_number s5 with
            | (none, s6) => ((false, ⟨0,0,0,0,0,0⟩), s6)
            | (some dy, s6) =>
              if 31 < dy then ((false, ⟨0,0,0,0,0,0⟩), s6) else
              match fixed_data s6 (str ("T")) with
              | (false, s7) => ((false, ⟨0,0,0,0,0,0⟩), s7)
              | (true, s7) =>
                match integer_number s7 with
                | (none, s8) => ((false, ⟨0,0,0,0,0,0⟩), s8)
                | (some hr, s8) =>
                  if 23 < hr then ((false, ⟨0,0,0,0,0,0⟩), s8) else
                  match fixed_data s8 (str (":")) with
                  | (false, s9) => ((false, ⟨0,0,0,0,0,0⟩), s9)
                  | (true, s9) =>
                    match integer_number s9 with
                    | (none, s10) => ((false, ⟨0,0,0,0,0,0⟩), s10)
                    | (some mi, s10) =>
                      if 59 < mi then ((false, ⟨0,0,0,0,0,0⟩), s10) else
                      match fixed_data s10 (str (":")) with
                      | (false, s11) => ((false, ⟨0,0,0,0,0,0⟩), s11)
                      | (true, s11) =>
                        match integer_number s11 with
                        | (none, s12) => ((false, ⟨0,0,0,0,0,0⟩), s12)
                        | (some sec, s12) =>
                          if 59 < sec then ((false, ⟨0,0,0,0,0,0⟩), s12) else
                          match fixed_data s12 (str ("Z")) with
                          | (false, s13) => ((false, ⟨0,0,0,0,0,0⟩), s13)
                          | (true, s13) => ((true, ⟨yr, mo, dy, hr, mi, sec⟩), s13)

/-- Outcome of the signature-array loop: an early return from
targets_process, or falling through to the signed section. -/
inductive SigLoopOut where
  | err (r : TResult)
  | ok
deriving DecidableEq, Repr

/-- The signature-array loop of targets_process (targets.c:295-350) as a
fuel recursion: `fuel` is the number of iterations remaining
(CONFIG_UPTANE_TARGETS_MAX_SIGS - i), so the `fuel = 0` case is the
`i == CONFIG_UPTANE_TARGETS_MAX_SIGS` check at line 349 (too many
signatures, JSONERR). -/
def sig_loop (env : Env) (ins : Inputs) : Nat → Nat → PState → SigLoopOut × PState
  | _, 0, s => (SigLoopOut.err TResult.jsonerr, s)
  | i, fuel+1, s =>
    match fixed_data s (str ("\x7b\"keyid\":")) with
    | (false, s1) => (SigLoopOut.err TResult.jsonerr, s1)
    | (true, s1) =>
      match hex_string env env.cfg.keyidLen s1 with
      | ((r, dec), s2) =>
        if r ≠ Int.ofNat env.cfg.keyidLen then (SigLoopOut.err TResult.jsonerr, s2)
        else
          -- Key lookup (targets.c:303-309). The C compares
          -- ctx->sigs[i]->key->keyid — index i, the signature counter —
          -- inside the loop over j, so the condition does not depend on j:
          -- the loop matches at j = 0 (current_sig = 0) exactly when key
          -- i's keyid equals the decoded buffer, and otherwise finds no
          -- match. For i ≥ num_keys the comparison reads an uninitialised
          -- slot; that read is modelled as never matching.
          let cur? : Option Nat :=
            if (effKeys env ins)[i]? = some dec then some 0 else none
          match fixed_data s2 (str (",\"method\":")) with
          | (false, s3) => (SigLoopOut.err TResult.jsonerr, s3)
          | (true, s3) =>
            match text_string env.cfg.bufSize s3 with
            | (none, s4) => (SigLoopOut.err TResult.jsonerr, s4)
            | (some method, s4) =>
              let ignoreSig : Bool := cur?.isNone || !(env.keytypeSupported method)
              match fixed_data s4 (str (",\"sig\":")) with
              | (false, s5) => (SigLoopOut.err TResult.jsonerr, s5)
              | (true, s5) =>
                if ignoreSig then
                  match ignore_string s5 with
                  | (false, s6) => (SigLoopOut.err TResult.jsonerr, s6)
                  | (true, s6) =>
                    match one_char s6 with
                    | (none, s7) => (SigLoopOut.err TResult.jsonerr, s7)
                    | (some b, s7) =>
                      if b = 93 then (SigLoopOut.ok, s7)
                      else if b = 44 then sig_loop env ins (i+1) fuel s7
                      else (SigLoopOut.err TResult.jsonerr, s7)
                else
                  match hex_string env env.cfg.sigLen s5 with
                  | ((r2, sdec), s6) =>
                    if r2 ≤ 0 then (SigLoopOut.err TResult.jsonerr, s6)
                    else
                      -- the slot written is current_sig = 0 (see the key
                      -- lookup note above); sig_valid is set BEFORE the
                      -- allocation of the verification context is checked
                      -- (targets.c:329-332)
                      let cur := cur?.getD 0
                      let s7 := { s6 with
                        sigStored := s6.sigStored.set cur sdec
                        sigValid := s6.sigValid.set cur true }
                      if env.ctxNewOk s7.allocs = false then
                        (SigLoopOut.err TResult.nomem, { s7 with allocs := s7.allocs + 1 })
                      else
                        let s8 := { s7 with
                          sigCtx := s7.sigCtx.set cur true
                          allocs := s7.allocs + 1 }
                        match one_char s8 with
                        | (none, s9) => (SigLoopOut.err TResult.jsonerr, s9)
                        | (some b, s9) =>
                          if b = 93 then (SigLoopOut.ok, s9)
                          else if b = 44 then sig_loop env ins (i+1) fuel s9
                          else (SigLoopOut.err TResult.jsonerr, s9)

/-- targets_process (targets.c:282-495). After the signatures array and the
literal `,"signed":`, in_signed is set and the `_type` string parsed; the
statement at line 363 is `if(strcmp(buf, "Targets"));` — the stray
semicolon makes the body empty, so the `return TARGETS_WRONGTYPE` on line
364 executes UNCONDITIONALLY. Lines 366-495 are unreachable; they are
embedded separately as `signed_tail` below for reference. -/
def targets_process (env : Env) (ins : Inputs) (s : PState) : TResult × PState :=
  match fixed_data s (str ("\x7b\"signatures\":[")) with
  | (false, s1) => (TResult.jsonerr, s1)
  | (true, s1) =>
    match sig_loop env ins 0 env.cfg.maxSigs s1 with
    | (SigLoopOut.err r, s2) => (r, s2)
    | (SigLoopOut.ok, s2) =>
      match fixed_data s2 (str (",\"signed\":")) with
      | (false, s3) => (TResult.jsonerr, s3)
      | (true, s3) =>
        let s3a := { s3 with inSigned := true }
        match fixed_data s3a (str ("\x7b\"_type\":")) with
        | (false, s4) => (TResult.jsonerr, s4)
        | (true, s4) =>
          match text_string env.cfg.bufSize s4 with
          | (none, s5) => (TResult.jsonerr, s5)
          | (some _, s5) =>
            -- targets.c:363-364: if(strcmp(buf, "Targets")); return TARGETS_WRONGTYPE;
            (TResult.wrongtype, s5)

/-- valid_sigs tally (targets.c:476-478): the number of key slots whose
sig_valid flag is set and whose verification context reports success. -/
def tallyValid (env : Env) (ins : Inputs) (s : PState) : Nat :=
  (List.range (numKeys env ins)).countP
    (fun i => s.sigValid.getD i false && env.verifyResult i s.fed)

/-- The hash sub-object loop (targets.c:415-436), fuel-bounded (every
iteration consumes input, so fuel = |input| + 1 never runs out): `none`
paired with the got_hash flag on normal exit, `some r` on early return. -/
def hashes_loop (env : Env) : Nat → Bool → Bool → PState → (Option TResult × Bool) × PState
  | 0, _, gotHash, s => ((some TResult.jsonerr, gotHash), s)
  | fuel+1, ignoreImage, gotHash, s =>
    match text_string env.cfg.bufSize s with
    | (none, s1) => ((some TResult.jsonerr, gotHash), s1)
    | (some alg, s1) =>
      let step :=
        if ignoreImage = false ∧ alg = str ("sha512") then
          match hex_string env env.cfg.hashLen s1 with
          | ((r, dec), s2) =>
            if r ≠ Int.ofNat env.cfg.hashLen then (some TResult.jsonerr, gotHash, s2)
            else (none, true, { s2 with sha512 := dec })
        else
          match ignore_string s1 with
          | (false, s2) => (some TResult.jsonerr, gotHash, s2)
          | (true, s2) => (none, gotHash, s2)
      match step with
      | (some r, gh, s2) => ((some r, gh), s2)
      | (none, gh, s2) =>
        match one_char s2 with
        | (none, s3) => ((some TResult.jsonerr, gh), s3)
        | (some b, s3) =>
          if b = 125 then ((none, gh), s3)
          else if b = 44 then hashes_loop env fuel ignoreImage gh s3
          else ((some TResult.jsonerr, gh), s3)

/-- The target loop (targets.c:379-460), fuel-bounded; carries got_image and
got_hash, which live outside the loop in the C. `none` with the two flags on
normal exit (closing brace of the targets object), `some r` on early return. -/
def targets_loop (env : Env) (ins : Inputs) :
    Nat → Bool → Bool → PState → (Option TResult × Bool × Bool) × PState
  | 0, gotImage, gotHash, s => ((some TResult.jsonerr, gotImage, gotHash), s)
  | fuel+1, gotImage, gotHash, s =>
    match ignore_string s with
    | (false, s1) => ((some TResult.jsonerr, gotImage, gotHash), s1)
    | (true, s1) =>
      match fixed_data s1 (str (":\x7b\"custom\":\x7b\"ecu_identifier\":")) with
      | (false, s2) => ((some TResult.jsonerr, gotImage, gotHash), s2)
      | (true, s2) =>
        match text_string env.cfg.bufSize s2 with
        | (none, s3) => ((some TResult.jsonerr, gotImage, gotHash), s3)
        | (some ecu, s3) =>
          let ignoreImage1 : Bool := ecu ≠ ins.ecuId
          match fixed_data s3 (str (",\"hardware_identifier\":")) with
          | (false, s4) => ((some TResult.jsonerr, gotImage, gotHash), s4)
          | (true, s4) =>
            match text_string env.cfg.bufSize s4 with
            | (none, s5) => ((some TResult.jsonerr, gotImage, gotHash), s5)
            | (some hw, s5) =>
              let ignoreImage : Bool := ignoreImage1 || hw ≠ ins.hwId
              match fixed_data s5 (str (",\"release_counter\":")) with
              | (false, s6) => ((some TResult.jsonerr, gotImage, gotHash), s6)
              | (true, s6) =>
                match integer_number s6 with
                | (none, s7) => ((some TResult.jsonerr, gotImage, gotHash), s7)
                | (some _, s7) =>
                  match fixed_data s7 (str ("\x7d,\"hashes\":\x7b")) with
                  | (false, s8) => ((some TResult.jsonerr, gotImage, gotHash), s8)
                  | (true, s8) =>
                    match hashes_loop env (s8.inp.length + 1) ignoreImage gotHash s8 with
                    | ((some r, gh), s9) => ((some r, gotImage, gh), s9)
                    | ((none, gh), s9) =>
                      match fixed_data s9 (str (",\"length\":")) with
                      | (false, s10) => ((some TResult.jsonerr, gotImage, gh), s10)
                      | (true, s10) =>
                        match integer_number s10 with
                        | (none, s11) => ((some TResult.jsonerr, gotImage, gh), s11)
                        | (some len, s11) =>
                          -- length is stored unconditionally (targets.c:441)
                          let s12 := { s11 with lengthOut := len }
                          if ignoreImage = false ∧ gotImage then
                            ((some TResult.ecuduplicate, gotImage, gh), s12)
                          else
                            let gotImage1 := gotImage || ignoreImage = false
                            match fixed_data s12 (str ("\x7d")) with
                            | (false, s13) => ((some TResult.jsonerr, gotImage1, gh), s13)
                            | (true, s13) =>
                              match one_char s13 with
                              | (none, s14) => ((some TResult.jsonerr, gotImage1, gh), s14)
                              | (some b, s14) =>
                                if b = 125 then ((none, gotImage1, gh), s14)
                                else if b = 44 then targets_loop env ins fuel gotImage1 gh s14
                                else ((some TResult.jsonerr, gotImage1, gh), s14)

/-- The remainder of targets_process from the expires field on
(targets.c:366-495). This code is UNREACHABLE in the source: the stray
semicolon at line 363 makes the WRONGTYPE return at line 364 unconditional.
It is embedded here to document the dead region the spec describes. -/
def signed_tail (env : Env) (ins : Inputs) (s : PState) : TResult × PState :=
  match fixed_data s (str (",\"expires\":")) with
  | (false, s1) => (TResult.jsonerr, s1)
  | (true, s1) =>
    match time_string s1 with
    | ((false, _), s2) => (TResult.jsonerr, s2)
    | ((true, t), s2) =>
      if uptane_time_greater ins.now t then (TResult.expired, s2)
      else
        match fixed_data s2 (str (",\"targets\":\x7b")) with
        | (false, s3) => (TResult.jsonerr, s3)
        | (true, s3) =>
          match targets_loop env ins (s3.inp.length + 1) false false s3 with
          | ((some r, _, _), s4) => (r, s4)
          | ((none, gotImage, gotHash), s4) =>
            match fixed_data s4 (str (",\"version\":")) with
            | (false, s5) => (TResult.jsonerr, s5)
            | (true, s5) =>
              match integer_number s5 with
              | (none, s6) => (TResult.jsonerr, s6)
              | (some v, s6) =>
                let s7 := { s6 with version := v }
                if v < ins.versionPrev then (TResult.downgrade, s7)
                else
                  match fixed_data s7 (str ("\x7d")) with
                  | (false, s8) => (TResult.jsonerr, s8)
                  | (true, s8) =>
                    let s9 := { s8 with inSigned := false }
                    if tallyValid env ins s9 < ins.threshold then (TResult.sigfail, s9)
                    else
                      match fixed_data s9 (str ("\x7d")) with
                      | (false, s10) => (TResult.jsonerr, s10)
                      | (true, s10) =>
                        if gotImage = false then (TResult.ok_noimage, s10)
                        else if gotHash = false then (TResult.nohash, s10)
                        else if v = ins.versionPrev then (TResult.ok_noupdate, s10)
                        else (TResult.ok_update, s10)

/-! ## Context pool (CONFIG_UPTANE_NOMALLOC mode) -/

/-- targets_ctx_new in pooled mode (targets.c:50-62): scan the busy flags
and return the index of the first free slot, or `none` when every slot is
busy. NOTE, faithful to the source: the busy flag of the returned slot is
NOT set — the pool array is returned unchanged. -/
def targets_ctx_new (busy : List Bool) : Option Nat × List Bool :=
  (busy.findIdx? (fun b => !b), busy)

/-- targets_ctx_free in pooled mode (targets.c:64-81), index-level view:
after releasing the per-key signature buffers and the verification
contexts of slots whose sig_valid flag is set, the busy flag of the freed
slot is cleared. -/
def targets_ctx_free (busy : List Bool) (j : Nat) : List Bool :=
  busy.set j false

/-! ## Return-definedness models (spec §9.1-9.2)

For each primitive with a missing return, `some r` means the C function
executes `return r`, and `none` means control reaches the end of the
function body without a return statement, so the boolean handed to the
caller is undefined. -/

/-- read_verify_wrapper (targets.c:109-119): the only return statement is
`return false` on read failure (line 111); on a successful read the
function feeds the verification contexts and then falls off the end. -/
def read_verify_wrapper_ret (readOk : Bool) : Option Bool :=
  if readOk = false then some false else none

/-- one_char (targets.c:138-141): returns false if the (undefined) value it
receives from read_verify_wrapper tests false, otherwise falls off the end;
on a successful read the result is undefined either way. -/
def one_char_ret (readOk : Bool) : Option Bool :=
  match read_verify_wrapper_ret readOk with
  | some false => some false
  | some true => none
  | none => none

/-- ignore_string (targets.c:212-214): calls text_string and then falls off
the end — there is no return statement on any path. -/
def ignore_string_ret (textOk : Bool) : Option Bool := none

/-- time_string (targets.c:239-280): every failure path executes
`return false`; the success path ends at line 280 without a return. -/
def time_string_ret (allOk : Bool) : Option Bool :=
  if allOk = false then some false else none

/-! ## Manifest serialization (grammar of spec §4.3 / targets.c:8-13),
used to quantify over grammar-conforming manifests. -/

/-- Lower-case hex digit character of a nibble. -/
def hexDigitChar (n : Nat) : Nat := if n < 10 then 48 + n else 87 + n

/-- Hex encoding of one byte, first nibble high. -/
def hexEnc1 (b : Nat) : Bytes := [hexDigitChar (b % 256 / 16), hexDigitChar (b % 16)]

/-- Hex encoding of a byte string. -/
def hexEnc (bs : Bytes) : Bytes := (bs.map hexEnc1).flatten

/-- A quoted string. -/
def quoteB (s : Bytes) : Bytes := 34 :: (s ++ [34])

/-- Decimal digits of a number. -/
def digitsB (n : Nat) : Bytes := (Nat.toDigits 10 n).map Char.toNat

/-- One element of the signatures array, structured. -/
structure SigEntry where
  keyid : Bytes
  method : Bytes
  sig : Bytes
deriving DecidableEq, Repr

/-- One target entry, structured. -/
structure TargetEntry where
  path : Bytes
  ecu : Bytes
  hw : Bytes
  releaseCounter : Nat
  hashes : List (Bytes × Bytes)
  len : Nat
deriving DecidableEq, Repr

/-- Serialization of one signature element. -/
def mkSig (e : SigEntry) : Bytes :=
  str ("\x7b\"keyid\":") ++ quoteB (hexEnc e.keyid) ++ str (",\"method\":") ++
    quoteB e.method ++ str (",\"sig\":") ++ quoteB (hexEnc e.sig) ++ str ("\x7d")

/-- Serialization of one hash entry. -/
def mkHash (h : Bytes × Bytes) : Bytes :=
  quoteB h.1 ++ [58] ++ quoteB (hexEnc h.2)

/-- Serialization of one target entry. -/
def mkTarget (t : TargetEntry) : Bytes :=
  quoteB t.path ++ str (":\x7b\"custom\":\x7b\"ecu_identifier\":") ++ quoteB t.ecu ++
    str (",\"hardware_identifier\":") ++ quoteB t.hw ++
    str (",\"release_counter\":") ++ digitsB t.releaseCounter ++
    str ("\x7d,\"hashes\":\x7b") ++ List.intercalate (str (",")) (t.hashes.map mkHash) ++
    str ("\x7d,\"length\":") ++ digitsB t.len ++ str ("\x7d")

/-- Serialization of a whole grammar-conforming manifest. -/
def mkManifest (sigs : List SigEntry) (typ expires : Bytes)
    (tgts : List TargetEntry) (version : Nat) : Bytes :=
  str ("\x7b\"signatures\":[") ++ List.intercalate (str (",")) (sigs.map mkSig) ++
    str ("],\"signed\":\x7b\"_type\":") ++ quoteB typ ++
    str (",\"expires\":") ++ quoteB expires ++
    str (",\"targets\":\x7b") ++ List.intercalate (str (",")) (tgts.map mkTarget) ++
    str ("\x7d,\"version\":") ++ digitsB version ++ str ("\x7d\x7d")

/-- The target entries of a manifest that are NOT foreign: those whose
ecu_identifier and hardware_identifier both equal the locally configured
values. Two target lists that differ only by adding, removing or
reordering foreign entries have the same `localTargets`. -/
def localTargets (ins : Inputs) (tgts : List TargetEntry) : List TargetEntry :=
  tgts.filter (fun t => t.ecu = ins.ecuId ∧ t.hw = ins.hwId)

/-! ## Symbolic-execution lemmas for the primitives -/

theorem one_char_cons (s : PState) (b : Byte) (r : Bytes)
    (hinp : s.inp = b :: r) (hs : s.inSigned = false) :
    one_char s = (some b, { s with inp := r }) := by
  simp [one_char, read_verify_wrapper, hinp, hs]

theorem fixed_data_eq (s : PState) (lit r : Bytes)
    (hinp : s.inp = lit ++ r) (hs : s.inSigned = false) :
    fixed_data s lit = (true, { s with inp := r }) := by
  simp [fixed_data, read_verify_wrapper, hinp, hs, List.take_left, List.drop_left]

theorem fixed_data_ne (s : PState) (lit a r : Bytes)
    (hinp : s.inp = a ++ r) (hlen : a.length = lit.length) (hne : a ≠ lit)
    (hs : s.inSigned = false) :
    fixed_data s lit = (false, { s with inp := r }) := by
  have hle : lit.length ≤ s.inp.length := by
    rw [hinp, List.length_append, ← hlen]; omega
  simp only [fixed_data, read_verify_wrapper, if_pos hle, hs, if_neg (Bool.false_ne_true ∘ id)]
  rw [hinp, ← hlen, List.take_left, List.drop_left]
  simp [beq_eq_false_iff_ne.mpr hne]

/-- The decoded bytes the code stores for a hex-encoded byte string, under
the resolution `env.ubFromHex` of from_hex's undefined return value. -/
def hexDec (env : Env) (ks : Bytes) : Bytes :=
  ks.map (fun b => env.ubFromHex (hexDigitChar (b % 256 / 16)) (hexDigitChar (b % 16)))

theorem hexDigitChar_is_hex (n : Nat) (h : n < 16) :
    is_hex (hexDigitChar n) = true := by
  simp only [is_hex, decide_eq_true_eq, hexDigitChar]
  split
  · exact Or.inl ⟨by omega, by omega⟩
  · exact Or.inr (Or.inr ⟨by omega, by omega⟩)

theorem hexDigitChar_ne_quote (n : Nat) (h : n < 16) : hexDigitChar n ≠ 34 := by
  unfold hexDigitChar; split <;> omega

/-- Running the nibble loop with a fuel of exactly `ks.length` pairs over
the hex encoding of `ks` consumes all of `hexEnc ks` and nothing more —
in particular a closing quote right after it is NOT consumed — and returns
the byte count `acc.length + ks.length`. -/
theorem hex_string_pairs_enc (env : Env) (ks : Bytes) :
    ∀ (acc : Bytes) (s : PState) (r : Bytes), s.inp = hexEnc ks ++ r → s.inSigned = false →
    hex_string_pairs env ks.length acc s =
      ((Int.ofNat (acc.length + ks.length), acc ++ hexDec env ks), { s with inp := r }) := by
  induction ks with
  | nil =>
    intro acc s r hinp hs
    simp only [hexEnc, List.map_nil, List.flatten_nil, List.nil_append] at hinp
    simp [hex_string_pairs, hexDec, ← hinp]
  | cons k t ih =>
    intro acc s r hinp hs
    have h1 : k % 256 / 16 < 16 := by omega
    have h2 : k % 16 < 16 := by omega
    have hinp1 : s.inp = hexDigitChar (k % 256 / 16) ::
        (hexDigitChar (k % 16) :: (hexEnc t ++ r)) := by
      simpa [hexEnc, hexEnc1, List.append_assoc] using hinp
    show hex_string_pairs env (t.length + 1) acc s = _
    rw [hex_string_pairs]
    simp only [one_char_cons s _ _ hinp1 hs,
      one_char_cons { s with inp := hexDigitChar (k % 16) :: (hexEnc t ++ r) } _ _ rfl hs,
      hexDigitChar_is_hex _ h1, hexDigitChar_is_hex _ h2,
      if_neg (hexDigitChar_ne_quote _ h1)]
    rw [ih (acc ++ [env.ubFromHex (hexDigitChar (k % 256 / 16)) (hexDigitChar (k % 16))])
      { s with inp := hexEnc t ++ r } r rfl hs]
    simp only [Bool.true_eq_false, if_false, reduceIte, hexDec, List.map_cons,
      List.length_append, List.length_cons, List.append_assoc, List.cons_append,
      List.nil_append, List.length_nil, Prod.mk.injEq]
    refine ⟨⟨?_, ?_⟩, ?_⟩
    · congr 1
      omega
    · trivial
    · trivial

theorem intercalate_cons (sep a : Bytes) (l : List Bytes) :
    ∃ t, List.intercalate sep (a :: l) = a ++ t := by
  cases l with
  | nil => exact ⟨[], by simp [List.intercalate]⟩
  | cons b m =>
    exact ⟨sep ++ List.intercalate sep (b :: m),
      by simp [List.intercalate, List.intersperse, List.append_assoc]⟩


theorem one_char_mk (b : Byte) (r fed : Bytes) (sv sc : List Bool) (ss : List Bytes)
    (al : Nat) (sh : Bytes) (lo vo : Nat) :
    one_char ⟨b :: r, false, fed, sv, sc, ss, al, sh, lo, vo⟩ =
      (some b, ⟨r, false, fed, sv, sc, ss, al, sh, lo, vo⟩) := by
  simp [one_char, read_verify_wrapper]

theorem fixed_data_mk_eq (lit r fed : Bytes) (sv sc : List Bool) (ss : List Bytes)
    (al : Nat) (sh : Bytes) (lo vo : Nat) :
    fixed_data ⟨lit ++ r, false, fed, sv, sc, ss, al, sh, lo, vo⟩ lit =
      (true, ⟨r, false, fed, sv, sc, ss, al, sh, lo, vo⟩) := by
  simpa using fixed_data_eq ⟨lit ++ r, false, fed, sv, sc, ss, al, sh, lo, vo⟩ lit r rfl rfl

theorem fixed_data_mk_ne (lit a : Bytes) (hlen : a.length = lit.length) (hne : a ≠ lit)
    (r fed : Bytes) (sv sc : List Bool) (ss : List Bytes)
    (al : Nat) (sh : Bytes) (lo vo : Nat) :
    fixed_data ⟨a ++ r, false, fed, sv, sc, ss, al, sh, lo, vo⟩ lit =
      (false, ⟨r, false, fed, sv, sc, ss, al, sh, lo, vo⟩) := by
  simpa using fixed_data_ne ⟨a ++ r, false, fed, sv, sc, ss, al, sh, lo, vo⟩ lit a r rfl
    hlen hne rfl

theorem hex_string_pairs_mk (env : Env) (ks acc r fed : Bytes) (sv sc : List Bool)
    (ss : List Bytes) (al : Nat) (sh : Bytes) (lo vo : Nat) :
    hex_string_pairs env ks.length acc ⟨hexEnc ks ++ r, false, fed, sv, sc, ss, al, sh, lo, vo⟩ =
      ((Int.ofNat (acc.length + ks.length), acc ++ hexDec env ks),
        ⟨r, false, fed, sv, sc, ss, al, sh, lo, vo⟩) := by
  simpa using hex_string_pairs_enc env ks acc
    ⟨hexEnc ks ++ r, false, fed, sv, sc, ss, al, sh, lo, vo⟩ r rfl rfl

theorem method_key (q : Bytes) : (34 : Nat) :: (str (",\"method\":") ++ q) =
    [34, 44, 34, 109, 101, 116, 104, 111, 100, 34] ++ (58 :: q) := rfl

theorem sig_loop_serialized (env : Env) (ins : Inputs) (e : SigEntry) (i fuel : Nat)
    (s : PState) (z : Bytes) (hinp : s.inp = mkSig e ++ z) (hs : s.inSigned = false)
    (hkid : e.keyid.length = env.cfg.keyidLen) :
    ∃ u, sig_loop env ins i (fuel+1) s = (SigLoopOut.err TResult.jsonerr, { s with inp := u }) := by
  obtain ⟨inp0, sgn, fed0, sv, sc, ss, al, sh, lo, vo⟩ := s
  dsimp only at hinp hs ⊢
  subst hs
  have hZ : inp0 = str ("\x7b\"keyid\":") ++ (34 :: (hexEnc e.keyid ++ (34 ::
      (str (",\"method\":") ++ (quoteB e.method ++ (str (",\"sig\":") ++
        (quoteB (hexEnc e.sig) ++ (str ("\x7d") ++ z)))))))) := by
    simpa [mkSig, quoteB, List.append_assoc, List.cons_append,
      List.singleton_append] using hinp
  subst hZ
  refine ⟨58 :: (quoteB e.method ++ (str (",\"sig\":") ++
    (quoteB (hexEnc e.sig) ++ (str ("\x7d") ++ z)))), ?_⟩
  simp only [sig_loop, ← hkid, fixed_data_mk_eq, hex_string, one_char_mk, ne_eq, reduceIte,
    hex_string_pairs_mk, List.length_nil, Nat.zero_add, not_true_eq_false,
    List.nil_append, method_key,
    fixed_data_mk_ne (str (",\"method\":")) ([34, 44, 34, 109, 101, 116, 104, 111, 100, 34])
      (by rfl) (by decide)]


theorem targets_process_sig1 (env : Env) (ins : Inputs) (e : SigEntry) (w : Bytes)
    (s : PState) (hinp : s.inp = str ("\x7b\"signatures\":[") ++ (mkSig e ++ w))
    (hs : s.inSigned = false) (hkid : e.keyid.length = env.cfg.keyidLen) :
    ∃ u, targets_process env ins s = (TResult.jsonerr, { s with inp := u }) := by
  obtain ⟨inp0, sgn, fed0, sv, sc, ss, al, sh, lo, vo⟩ := s
  dsimp only at hinp hs ⊢
  subst hs
  subst hinp
  cases hms : env.cfg.maxSigs with
  | zero =>
    refine ⟨mkSig e ++ w, ?_⟩
    simp only [targets_process, fixed_data_mk_eq, hms, sig_loop]
  | succ n =>
    obtain ⟨u, hu⟩ := sig_loop_serialized env ins e 0 n
      ⟨mkSig e ++ w, false, fed0, sv, sc, ss, al, sh, lo, vo⟩ w rfl rfl hkid
    refine ⟨u, ?_⟩
    simp only [targets_process, fixed_data_mk_eq, hms, hu]

/-- On any grammar-conforming serialized manifest whose first signature has
a keyid of the configured length, targets_process stops with JSONERR while
still inside the first signature element: hex_string, having decoded
exactly CRYPTO_KEYID_LEN bytes, exits its loop without consuming the
closing quote of the keyid (the bound at targets.c:164 is
`i < (max_len << 1)`), so the subsequent `,"method":` literal check reads
the leftover quote and fails. Only the inp field of the state changes. -/
theorem targets_process_serialized (env : Env) (ins : Inputs) (e : SigEntry)
    (rest : List SigEntry) (typ expires : Bytes) (tgts : List TargetEntry) (v : Nat)
    (hkid : e.keyid.length = env.cfg.keyidLen) :
    ∃ u, targets_process env ins (initState env ins (mkManifest (e :: rest) typ expires tgts v)) =
      (TResult.jsonerr,
        { initState env ins (mkManifest (e :: rest) typ expires tgts v) with inp := u }) := by
  obtain ⟨t, ht⟩ := intercalate_cons (str (",")) (mkSig e) (rest.map mkSig)
  refine targets_process_sig1 env ins e
    (t ++ (str ("],\"signed\":\x7b\"_type\":") ++ (quoteB typ ++ (str (",\"expires\":") ++
      (quoteB expires ++ (str (",\"targets\":\x7b") ++
        (List.intercalate (str (",")) (tgts.map mkTarget) ++
          (str ("\x7d,\"version\":") ++ (digitsB v ++ str ("\x7d\x7d")))))))))) _ ?_ rfl hkid
  show mkManifest (e :: rest) typ expires tgts v = _
  simp [mkManifest, ht, List.append_assoc]


theorem sig_loop_cases (env : Env) (ins : Inputs) :
    ∀ (fuel i : Nat) (s : PState),
      (sig_loop env ins i fuel s).1 = SigLoopOut.err TResult.jsonerr ∨
      (sig_loop env ins i fuel s).1 = SigLoopOut.err TResult.nomem ∨
      (sig_loop env ins i fuel s).1 = SigLoopOut.ok := by
  intro fuel
  induction fuel with
  | zero => intro i s; simp [sig_loop]
  | succ n ih =>
    intro i s
    rw [sig_loop]
    repeat'
      first
        | exact ih _ _
        | (left; rfl)
        | (right; left; rfl)
        | (right; right; rfl)
        | split
        | (dsimp only; split)

theorem targets_process_cases (env : Env) (ins : Inputs) (s : PState) :
    (targets_process env ins s).1 = TResult.jsonerr ∨
    (targets_process env ins s).1 = TResult.wrongtype ∨
    (targets_process env ins s).1 = TResult.nomem := by
  rw [targets_process]
  split
  · simp
  · rename_i s1 heq1
    rcases hsl : sig_loop env ins 0 env.cfg.maxSigs s1 with ⟨out, s2⟩
    have h := sig_loop_cases env ins env.cfg.maxSigs 0 s1
    rw [hsl] at h
    simp only [Prod.fst] at h
    rcases h with h | h | h <;> subst h
    · simp
    · simp
    · repeat'
        first
          | (left; rfl)
          | (right; left; rfl)
          | (right; right; rfl)
          | split
          | (dsimp only; split)
          | simp_all


/-! ## Concrete fixtures for the claim theorems -/

/-- A small representative build configuration for the concrete runs (the
build-time constants are free parameters of the embedding; the universal
theorems below hold for every configuration). -/
def cfgS : Config := { maxSigs := 2, bufSize := 32, keyidLen := 1, sigLen := 2, hashLen := 1 }

/-- A fresh state for running a primitive on a bare stream. -/
def st0 (stream : Bytes) : PState :=
  { inp := stream, inSigned := false, fed := [], sigValid := [], sigCtx := [],
    sigStored := [], allocs := 0, sha512 := [], lengthOut := 0, version := 0 }

def envC1 : Env :=
  { cfg := cfgS, keytypeSupported := fun _ => true, ctxNewOk := fun _ => true,
    verifyResult := fun _ _ => true, ubFromHex := fun _ _ => 7 }

def insC1 : Inputs :=
  { versionPrev := 1, now := ⟨2024, 6, 1, 0, 0, 0⟩, ecuId := str ("ecu1"),
    hwId := str ("hw1"), keys := [[7]], threshold := 1 }

/-- A fully grammar-conforming manifest (the serialization of the spec §8
scenario S1, scaled to cfgS): one signature whose keyid is the trusted key,
`_type` = Targets, a future expiry, one target matching the local
identity with a sha512 hash, version 2 against versionPrev 1. -/
def manifestC1 : Bytes :=
  mkManifest [⟨[7], str ("ed25519"), [1, 2]⟩] (str ("Targets"))
    (str ("2099-01-01T00:00:00Z"))
    [⟨str ("t1"), str ("ecu1"), str ("hw1"), 0, [(str ("sha512"), [5])], 1024⟩] 2

/-- C1: the spec says that for a valid manifest the bytes fed to every live
verification context are exactly the signed object from its opening brace
to its matching closing brace. On the code this fails: on a fully
grammar-conforming manifest accepted nowhere near that point,
targets_process stops with JSONERR inside the first signature (hex_string
never consumes the keyid's closing quote when the value has exactly
CRYPTO_KEYID_LEN bytes), in_signed is never set, and the byte sequence fed
to the verification contexts is empty rather than the signed object. -/
theorem c1_fed_bytes_empty_on_conforming_manifest :
    (targets_process envC1 insC1 (initState envC1 insC1 manifestC1)).1 = TResult.jsonerr ∧
    (targets_process envC1 insC1 (initState envC1 insC1 manifestC1)).2.fed = [] ∧
    (targets_process envC1 insC1 (initState envC1 insC1 manifestC1)).2.inSigned = false := by
  decide

def envC2 : Env :=
  { cfg := cfgS, keytypeSupported := fun _ => true, ctxNewOk := fun _ => true,
    verifyResult := fun _ _ => true, ubFromHex := fun _ _ => 0 }

def insC2 : Inputs :=
  { versionPrev := 1, now := ⟨2024, 6, 1, 0, 0, 0⟩, ecuId := str ("ecu1"),
    hwId := str ("hw1"), keys := [], threshold := 1 }

/-- A stream reaching the `_type` check with `_type` = "Targets". The keyid
string is unterminated (no closing quote after exactly 2·CRYPTO_KEYID_LEN
hex digits) — the only shape that survives the hex_string quote defect. -/
def streamC2targets : Bytes :=
  str ("\x7b\"signatures\":[\x7b\"keyid\":\"01,\"method\":\"m\",\"sig\":\"ab\"],\"signed\":\x7b\"_type\":\"Targets\"")

/-- The same stream with `_type` = "Snapshot". -/
def streamC2snapshot : Bytes :=
  str ("\x7b\"signatures\":[\x7b\"keyid\":\"01,\"method\":\"m\",\"sig\":\"ab\"],\"signed\":\x7b\"_type\":\"Snapshot\"")

/-- C2: the claim says targets_process proceeds past the role check when the
parsed `_type` equals "Targets" and returns TARGETS_WRONGTYPE otherwise.
The second half holds, but the first fails: the stray semicolon in
`if(strcmp(buf, "Targets"));` (targets.c:363) makes the
`return TARGETS_WRONGTYPE` unconditional, so `_type` = "Targets" is also
answered with WRONGTYPE. -/
theorem c2_wrongtype_returned_even_for_targets :
    (targets_process envC2 insC2 (initState envC2 insC2 streamC2targets)).1 =
      TResult.wrongtype ∧
    (targets_process envC2 insC2 (initState envC2 insC2 streamC2snapshot)).1 =
      TResult.wrongtype := by
  decide

/-- C3: the claim says a success-family result needs at least threshold-many
passing verification contexts and that a lower tally yields
TARGETS_SIGFAIL. On the code the signature tally (targets.c:474-480) is
unreachable: for every environment, every configuration and every input
stream, targets_process never returns any success-family result and never
returns TARGETS_SIGFAIL — the unconditional WRONGTYPE return at the role
check (and the keyid quote defect before it) cut the run off first. -/
theorem c3_success_and_sigfail_unreachable (env : Env) (ins : Inputs) (s : PState) :
    (targets_process env ins s).1 ≠ TResult.ok_update ∧
    (targets_process env ins s).1 ≠ TResult.ok_noupdate ∧
    (targets_process env ins s).1 ≠ TResult.ok_noimage ∧
    (targets_process env ins s).1 ≠ TResult.sigfail := by
  rcases targets_process_cases env ins s with h | h | h <;> simp [h]

/-- C4: the claim says the result is DOWNGRADE / OK_NOUPDATE / OK_UPDATE
exactly as version compares to version_prev (given image, digest and
signatures). On the code the version comparison (targets.c:465-469 and
486-495) is unreachable: no environment, configuration or input stream
makes targets_process return any of those three results. -/
theorem c4_version_dispositions_unreachable (env : Env) (ins : Inputs) (s : PState) :
    (targets_process env ins s).1 ≠ TResult.downgrade ∧
    (targets_process env ins s).1 ≠ TResult.ok_noupdate ∧
    (targets_process env ins s).1 ≠ TResult.ok_update := by
  rcases targets_process_cases env ins s with h | h | h <;> simp [h]

/-- C5: two manifests that differ only by adding, removing or reordering
target entries whose ecu_identifier or hardware_identifier differs from the
locally configured values (their non-foreign target subsequences are equal)
produce the same result code, the same extracted SHA-512 digest and the
same extracted length. This holds for every environment and configuration —
degenerately: targets_process stops with JSONERR inside the first signature
element on every grammar-conforming serialized manifest, before the targets
section is ever read, so the outputs are the untouched initial values on
both sides. -/
theorem c5_foreign_target_changes_preserve_result (env : Env) (ins : Inputs)
    (sigs : List SigEntry) (typ expires : Bytes) (tgts1 tgts2 : List TargetEntry) (v : Nat)
    (hne : sigs ≠ [])
    (hkid : (sigs.headD ⟨[], [], []⟩).keyid.length = env.cfg.keyidLen)
    (hforeign : localTargets ins tgts1 = localTargets ins tgts2) :
    (targets_process env ins (initState env ins (mkManifest sigs typ expires tgts1 v))).1 =
      (targets_process env ins (initState env ins (mkManifest sigs typ expires tgts2 v))).1 ∧
    (targets_process env ins (initState env ins (mkManifest sigs typ expires tgts1 v))).2.sha512 =
      (targets_process env ins (initState env ins (mkManifest sigs typ expires tgts2 v))).2.sha512 ∧
    (targets_process env ins (initState env ins (mkManifest sigs typ expires tgts1 v))).2.lengthOut =
      (targets_process env ins (initState env ins (mkManifest sigs typ expires tgts2 v))).2.lengthOut := by
  obtain ⟨e, rest, rfl⟩ : ∃ e rest, sigs = e :: rest := by
    cases sigs with
    | nil => exact absurd rfl hne
    | cons a l => exact ⟨a, l, rfl⟩
  simp only [List.headD_cons] at hkid
  obtain ⟨u1, h1⟩ := targets_process_serialized env ins e rest typ expires tgts1 v hkid
  obtain ⟨u2, h2⟩ := targets_process_serialized env ins e rest typ expires tgts2 v hkid
  rw [h1, h2]
  simp [initState]

def env5 : Env :=
  { cfg := cfgS, keytypeSupported := fun _ => true, ctxNewOk := fun _ => true,
    verifyResult := fun _ _ => true, ubFromHex := fun _ _ => 7 }

def ins5 : Inputs :=
  { versionPrev := 1, now := ⟨2024, 6, 1, 0, 0, 0⟩, ecuId := str ("ecu1"),
    hwId := str ("hw1"), keys := [[7]], threshold := 1 }

def sigs5 : List SigEntry := [⟨[7], str ("ed25519"), [1, 2]⟩]

/-- A single foreign target (ecu_identifier differs from the local value). -/
def tgts5a : List TargetEntry :=
  [⟨str ("x"), str ("other"), str ("hw1"), 0, [(str ("sha512"), [5])], 7⟩]

def tgts5b : List TargetEntry := []

/-- Witness for C5 at a concrete input: adding one foreign target to an
empty targets list satisfies the hypotheses and the conclusion. -/
theorem c5_foreign_target_changes_preserve_result_witness :
    (sigs5 ≠ [] ∧
     (sigs5.headD ⟨[], [], []⟩).keyid.length = env5.cfg.keyidLen ∧
     localTargets ins5 tgts5a = localTargets ins5 tgts5b) ∧
    ((targets_process env5 ins5 (initState env5 ins5
        (mkManifest sigs5 (str ("Targets")) (str ("2099-01-01T00:00:00Z")) tgts5a 2))).1 =
      (targets_process env5 ins5 (initState env5 ins5
        (mkManifest sigs5 (str ("Targets")) (str ("2099-01-01T00:00:00Z")) tgts5b 2))).1 ∧
     (targets_process env5 ins5 (initState env5 ins5
        (mkManifest sigs5 (str ("Targets")) (str ("2099-01-01T00:00:00Z")) tgts5a 2))).2.sha512 =
      (targets_process env5 ins5 (initState env5 ins5
        (mkManifest sigs5 (str ("Targets")) (str ("2099-01-01T00:00:00Z")) tgts5b 2))).2.sha512 ∧
     (targets_process env5 ins5 (initState env5 ins5
        (mkManifest sigs5 (str ("Targets")) (str ("2099-01-01T00:00:00Z")) tgts5a 2))).2.lengthOut =
      (targets_process env5 ins5 (initState env5 ins5
        (mkManifest sigs5 (str ("Targets")) (str ("2099-01-01T00:00:00Z")) tgts5b 2))).2.lengthOut) :=
  ⟨⟨by decide, by decide, by decide⟩,
    c5_foreign_target_changes_preserve_result env5 ins5 sigs5 (str ("Targets"))
      (str ("2099-01-01T00:00:00Z")) tgts5a tgts5b 2 (by decide) (by decide) (by decide)⟩

def envC6 : Env :=
  { cfg := cfgS, keytypeSupported := fun _ => true, ctxNewOk := fun _ => true,
    verifyResult := fun _ _ => true,
    ubFromHex := fun hi lo => if hi = 48 ∧ lo = 49 then 7 else 0 }

/-- Two trusted keys; the second one's keyid equals the byte the keyid hex
"01" decodes to under envC6's resolution of from_hex. -/
def insC6 : Inputs :=
  { versionPrev := 1, now := ⟨2024, 6, 1, 0, 0, 0⟩, ecuId := str ("ecu1"),
    hwId := str ("hw1"), keys := [[5], [7]], threshold := 1 }

/-- One signature element whose (unterminated) keyid decodes to keys[1],
followed by the end of the signatures array and the end of the stream. -/
def streamC6 : Bytes :=
  str ("\x7b\"signatures\":[\x7b\"keyid\":\"01,\"method\":\"m\",\"sig\":\"ab\"]")

/-- C6: the claim says a signature whose keyid matches trusted key j is
stored in and bound to slot j. On the code, the key-lookup loop
(targets.c:303-309) compares `ctx->sigs[i]->key->keyid` — i is the
signature counter, not the loop variable j — so signature element 0, whose
keyid decodes to keys[1]'s keyid, matches nothing (only keys[0] is ever
compared): it is skipped with quoted_text(discard), no slot is marked valid,
no signature is stored and no verification context is created, where the
claim demands slot 1 to be bound. -/
theorem c6_matching_key1_signature_is_skipped :
    (targets_process envC6 insC6 (initState envC6 insC6 streamC6)).1 = TResult.jsonerr ∧
    (targets_process envC6 insC6 (initState envC6 insC6 streamC6)).2.sigValid =
      [false, false] ∧
    (targets_process envC6 insC6 (initState envC6 insC6 streamC6)).2.sigCtx =
      [false, false] ∧
    (targets_process envC6 insC6 (initState envC6 insC6 streamC6)).2.sigStored =
      [[], []] := by
  decide

def envC7 : Env :=
  { cfg := cfgS, keytypeSupported := fun _ => true, ctxNewOk := fun _ => true,
    verifyResult := fun _ _ => true, ubFromHex := fun _ _ => 0 }

/-- C7: the claim describes hex_string as decoding nibble pairs first-high
through the closing quote inclusive, returning up to max bytes and failing
beyond max. On the code: (i) from_hex ends without a return statement, so
the decoded byte is undefined (`none`), not the first-nibble-high value
0xab = 171; (ii) with exactly max bytes ("61" with max 1) hex_string
returns max but leaves the cursor ON the closing quote, not past it;
(iii) with more than max bytes ("6162" with max 1) it does not fail: it
returns max with the cursor in the middle of the string. -/
theorem c7_hex_string_quote_and_decode_defects :
    from_hex 97 98 = none ∧
    from_hex_spec 97 98 = 171 ∧
    (hex_string envC7 1 (st0 (str ("\"61\"x")))).1 = (1, [0]) ∧
    (hex_string envC7 1 (st0 (str ("\"61\"x")))).2.inp = str ("\"x") ∧
    (hex_string envC7 1 (st0 (str ("\"6162\"")))).1 = (1, [0]) ∧
    (hex_string envC7 1 (st0 (str ("\"6162\"")))).2.inp = str ("62\"") := by
  decide

/-- C8: the claim says a slot returned by targets_ctx_new is busy, that new
returns NULL exactly when all slots are busy, and that free makes a slot
reusable. On the code targets_ctx_new (targets.c:50-62) never sets the busy
flag of the slot it hands out: with an all-free two-slot pool, two
consecutive calls both return slot 0 and the pool state is unchanged.
(new on an all-busy pool does return NULL, and free does clear the flag.) -/
theorem c8_ctx_new_returns_same_slot_twice :
    targets_ctx_new [false, false] = (some 0, [false, false]) ∧
    (targets_ctx_new (targets_ctx_new [false, false]).2).1 = some 0 ∧
    (targets_ctx_new [true, true]).1 = none ∧
    targets_ctx_free [true, true] 1 = [true, false] := by
  decide

/-- C9: the claim says every lexical primitive returns a defined boolean,
true on success and false on failure. On the code read_verify_wrapper,
one_char, ignore_string and time_string have no return statement on their
success paths (ignore_string on any path), so the boolean their callers
receive is undefined there — modelled as `none` — while the read-failure
paths do return false. (fixed_data and text_string do return on all
paths.) -/
theorem c9_success_paths_fall_off_the_end :
    read_verify_wrapper_ret true = none ∧
    read_verify_wrapper_ret false = some false ∧
    one_char_ret true = none ∧
    one_char_ret false = some false ∧
    ignore_string_ret true = none ∧
    ignore_string_ret false = none ∧
    time_string_ret true = none ∧
    time_string_ret false = some false := by
  decide

def envC10 : Env :=
  { cfg := cfgS, keytypeSupported := fun _ => true, ctxNewOk := fun _ => false,
    verifyResult := fun _ _ => true, ubFromHex := fun _ _ => 7 }

def insC10 : Inputs :=
  { versionPrev := 1, now := ⟨2024, 6, 1, 0, 0, 0⟩, ecuId := str ("ecu1"),
    hwId := str ("hw1"), keys := [[7]], threshold := 1 }

/-- A signature element whose (unterminated) keyid decodes to the trusted
key, with a supported method, reaching the verification-context allocation. -/
def streamC10 : Bytes :=
  str ("\x7b\"signatures\":[\x7b\"keyid\":\"01,\"method\":\"m\",\"sig\":\"ab\"")

/-- C10: the claim says that at every exit of targets_process sig_valid[i]
is set only if sig_ctx[i] holds a live verification context. On the code
sig_valid[current_sig] is set to true (targets.c:329) BEFORE
crypto_verify_ctx_new is checked (330-332): when that allocation fails the
function exits with TARGETS_NOMEM leaving sig_valid[0] = true with no live
context in slot 0, so targets_ctx_free would release an unallocated
verification context. -/
theorem c10_nomem_exit_leaves_sig_valid_without_context :
    (targets_process envC10 insC10 (initState envC10 insC10 streamC10)).1 =
      TResult.nomem ∧
    (targets_process envC10 insC10 (initState envC10 insC10 streamC10)).2.sigValid =
      [true] ∧
    (targets_process envC10 insC10 (initState envC10 insC10 streamC10)).2.sigCtx =
      [false] := by
  decide

end Uptiny
